import Mathlib

/-!
Shallow embedding of `src/handwerk_app.py`, a command-line tool for craft
businesses that stores projects, tasks and material requirements in a single
JSON document (`handwerk_data.json`).

Modelling conventions:
* JSON values are modelled by the inductive type `Json`.  Machine floats
  (material quantities) are modelled as exact rationals: the program only
  stores and prints quantities, it never computes with them.
* The persisted file is modelled as `Option Json`; `none` means the backing
  file is absent.  `save_data` returns the new file contents (the serialized
  document), mirroring `json.dump` of the in-memory dictionaries.
* Each command is modelled per invocation as a pure function from the loaded
  `Document` to a `CmdResult`, recording the document passed to `save_data`
  (if the command saved one) and the printed lines.  `runFile` wraps a
  command with `load_data`; a present file that does not parse as a document
  makes the Python process die with an uncaught exception, modelled as
  `Except.error ()`.
* Python truthiness tests on optional values (`if args.status:`,
  `if args.project_id:`, `x or "-"`) are modelled by the `truthy` helpers
  and `orDash`: `None`, the empty string and the integer 0 are falsy.
* `ratDisplay` abstracts Python's float `repr` used when quantities are
  printed; no property below depends on the rendered digits.
-/

namespace Handwerk

/-- JSON values, the shape of the persisted file and of the dictionaries the
program manipulates in memory. -/
inductive Json where
  | null : Json
  | jstr : String → Json
  | jint : Int → Json
  | jnum : Rat → Json
  | jarr : List Json → Json
  | jobj : List (String × Json) → Json

/-- The `Task` dataclass of the source: title, optional due date, status
(argparse supplies the default status). -/
structure Task where
  title : String
  due_date : Option String
  status : String
deriving DecidableEq

/-- The `Material` dataclass of the source: name, quantity (a Python float,
modelled as an exact rational) and unit. -/
structure Material where
  name : String
  quantity : Rat
  unit : String
deriving DecidableEq

/-- The `Project` dataclass of the source, with its nested task and material
lists. -/
structure Project where
  id : Int
  name : String
  customer : String
  address : Option String
  due_date : Option String
  status : String
  notes : Option String
  tasks : List Task
  materials : List Material
deriving DecidableEq

/-- The top-level persisted document: the `projects` list and the global
`inventory` list. -/
structure Document where
  projects : List Project
  inventory : List Material
deriving DecidableEq

/-- Optional strings serialize as the string or as JSON `null`, exactly as
`None` fields of the dataclasses do under `json.dump`. -/
def optStrJson : Option String → Json
  | none => Json.null
  | some s => Json.jstr s

/-- `Task.to_dict` of the source: the dictionary written for a task, keys in
source order. -/
def Task.to_dict (t : Task) : Json :=
  Json.jobj [("title", Json.jstr t.title),
             ("due_date", optStrJson t.due_date),
             ("status", Json.jstr t.status)]

/-- `Material.to_dict` of the source. -/
def Material.to_dict (m : Material) : Json :=
  Json.jobj [("name", Json.jstr m.name),
             ("quantity", Json.jnum m.quantity),
             ("unit", Json.jstr m.unit)]

/-- `Project.to_dict` of the source, keys in source order. -/
def Project.to_dict (p : Project) : Json :=
  Json.jobj [("id", Json.jint p.id),
             ("name", Json.jstr p.name),
             ("customer", Json.jstr p.customer),
             ("address", optStrJson p.address),
             ("due_date", optStrJson p.due_date),
             ("status", Json.jstr p.status),
             ("notes", optStrJson p.notes),
             ("tasks", Json.jarr (p.tasks.map Task.to_dict)),
             ("materials", Json.jarr (p.materials.map Material.to_dict))]

/-- Serialization of the whole document, as written by `save_data`. -/
def Document.toJson (d : Document) : Json :=
  Json.jobj [("projects", Json.jarr (d.projects.map Project.to_dict)),
             ("inventory", Json.jarr (d.inventory.map Material.to_dict))]

/-- Decode an optional-string field (JSON `null` or a string). -/
def optStrOfJson : Json → Option (Option String)
  | Json.null => some none
  | Json.jstr s => some (some s)
  | _ => none

/-- Decode a task dictionary of the persisted shape. -/
def Task.fromJson : Json → Option Task
  | Json.jobj [("title", Json.jstr t), ("due_date", dd), ("status", Json.jstr s)] =>
      (optStrOfJson dd).bind fun d => some (Task.mk t d s)
  | _ => none

/-- Decode a material dictionary of the persisted shape. -/
def Material.fromJson : Json → Option Material
  | Json.jobj [("name", Json.jstr n), ("quantity", Json.jnum q), ("unit", Json.jstr u)] =>
      some (Material.mk n q u)
  | _ => none

/-- Decode every element of a list, failing if any element fails. -/
def decodeList {α : Type} (f : Json → Option α) : List Json → Option (List α)
  | [] => some []
  | j :: js =>
      (f j).bind fun x => (decodeList f js).bind fun xs => some (x :: xs)

/-- Decode a project dictionary of the persisted shape. -/
def Project.fromJson : Json → Option Project
  | Json.jobj [("id", Json.jint i), ("name", Json.jstr n), ("customer", Json.jstr c),
               ("address", ad), ("due_date", dd), ("status", Json.jstr st),
               ("notes", no), ("tasks", Json.jarr ts), ("materials", Json.jarr ms)] =>
      (optStrOfJson ad).bind fun a =>
      (optStrOfJson dd).bind fun d2 =>
      (optStrOfJson no).bind fun nt =>
      (decodeList Task.fromJson ts).bind fun tks =>
      (decodeList Material.fromJson ms).bind fun mts =>
      some (Project.mk i n c a d2 st nt tks mts)
  | _ => none

/-- Decode the whole persisted document. -/
def Document.fromJson : Json → Option Document
  | Json.jobj [("projects", Json.jarr ps), ("inventory", Json.jarr ms)] =>
      (decodeList Project.fromJson ps).bind fun prs =>
      (decodeList Material.fromJson ms).bind fun inv =>
      some (Document.mk prs inv)
  | _ => none

/-- `DEFAULT_DATA` of the source: the fresh empty document. -/
def DEFAULT_DATA : Document := Document.mk [] []

/-- `load_data` of the source: absent file yields the default empty document,
otherwise the file contents are parsed as the document.  A present file that
is not of the document shape is the fatal-corruption case, outside `some`. -/
def load_data : Option Json → Option Document
  | none => some DEFAULT_DATA
  | some j => Document.fromJson j

/-- `save_data` of the source: the new file contents after writing. -/
def save_data (data : Document) : Option Json :=
  some (Document.toJson data)

/-- Python `max` over a list with a default value: the default is used only
when the list is empty. -/
def listMaxD (dflt : Int) : List Int → Int
  | [] => dflt
  | x :: xs => xs.foldl max x

/-- `next_project_id` of the source:
`max((p.get("id", 0) for p in projects), default=0) + 1`. -/
def next_project_id (d : Document) : Int :=
  listMaxD 0 (d.projects.map Project.id) + 1

/-- `find_project` of the source: first project whose id equals the given
one. -/
def find_project (d : Document) (project_id : Int) : Option Project :=
  d.projects.find? (fun p => decide (p.id = project_id))

/-- Replace the first project carrying the given id, mirroring the in-place
mutation of the dictionary returned by `find_project`. -/
def update_first (project_id : Int) (f : Project → Project) : List Project → List Project
  | [] => []
  | p :: ps =>
      if p.id = project_id then f p :: ps else p :: update_first project_id f ps

/-- Python truthiness of an optional string (`None` and `""` are falsy). -/
def truthyStr : Option String → Bool
  | none => false
  | some s => decide (s ≠ "")

/-- Python truthiness of an optional integer (`None` and `0` are falsy). -/
def truthyInt : Option Int → Bool
  | none => false
  | some i => decide (i ≠ 0)

/-- Python `x or "-"` on an optional string. -/
def orDash : Option String → String
  | none => "-"
  | some s => if s = "" then "-" else s

/-- Display of a rational quantity (abstraction of Python float `repr`). -/
def ratDisplay (q : Rat) : String := toString q

/-- Result of one command invocation: the document handed to `save_data`, if
any, and the printed lines. -/
structure CmdResult where
  saved : Option Document
  output : List String
deriving DecidableEq

/-- Arguments of `project add` after argparse (status defaults to "offen"). -/
structure ProjectAddArgs where
  name : String
  customer : String
  address : Option String
  due_date : Option String
  status : String
  notes : Option String
deriving DecidableEq

/-- Arguments of `task add` after argparse. -/
structure TaskAddArgs where
  project_id : Int
  title : String
  due_date : Option String
  status : String
deriving DecidableEq

/-- Arguments of `material add` after argparse (`--project-id` optional). -/
structure MaterialAddArgs where
  name : String
  quantity : Rat
  unit : String
  project_id : Option Int
deriving DecidableEq

/-- The project record built by `cmd_project_add`. -/
def new_project (d : Document) (a : ProjectAddArgs) : Project :=
  Project.mk (next_project_id d) a.name a.customer a.address a.due_date a.status a.notes [] []

/-- The document after `cmd_project_add` appends the new project. -/
def project_add_doc (d : Document) (a : ProjectAddArgs) : Document :=
  Document.mk (d.projects ++ [new_project d a]) d.inventory

/-- `cmd_project_add` of the source. -/
def cmd_project_add (d : Document) (a : ProjectAddArgs) : CmdResult :=
  CmdResult.mk (some (project_add_doc d a))
    ["Projekt " ++ toString (new_project d a).id ++ " angelegt: " ++ a.name ++ " für " ++ a.customer]

/-- `cmd_task_add` of the source. -/
def cmd_task_add (d : Document) (a : TaskAddArgs) : CmdResult :=
  match find_project d a.project_id with
  | none => CmdResult.mk none ["Projekt " ++ toString a.project_id ++ " nicht gefunden."]
  | some project =>
      CmdResult.mk
        (some (Document.mk
          (update_first a.project_id
            (fun p => Project.mk p.id p.name p.customer p.address p.due_date p.status p.notes
              (p.tasks ++ [Task.mk a.title a.due_date a.status]) p.materials)
            d.projects)
          d.inventory))
        ["Aufgabe für Projekt " ++ toString project.id ++ " gespeichert: " ++ a.title]

/-- `cmd_material_add` of the source.  Note the Python truthiness test
`if args.project_id:` selecting the branch. -/
def cmd_material_add (d : Document) (a : MaterialAddArgs) : CmdResult :=
  if truthyInt a.project_id then
    match find_project d (a.project_id.getD 0) with
    | none =>
        CmdResult.mk none ["Projekt " ++ toString (a.project_id.getD 0) ++ " nicht gefunden."]
    | some project =>
        CmdResult.mk
          (some (Document.mk
            (update_first (a.project_id.getD 0)
              (fun p => Project.mk p.id p.name p.customer p.address p.due_date p.status p.notes
                p.tasks (p.materials ++ [Material.mk a.name a.quantity a.unit]))
              d.projects)
            d.inventory))
          ["Material hinzugefügt zu " ++ ("Projekt " ++ toString project.id) ++ ": "
            ++ ratDisplay a.quantity ++ " " ++ a.unit ++ " " ++ a.name]
  else
    CmdResult.mk
      (some (Document.mk d.projects (d.inventory ++ [Material.mk a.name a.quantity a.unit])))
      ["Material hinzugefügt zu " ++ "Lagerbestand" ++ ": "
        ++ ratDisplay a.quantity ++ " " ++ a.unit ++ " " ++ a.name]

/-- String of `n` copies of a character (Python `"-" * 76`). -/
def strRepl (n : Nat) (c : Char) : String := String.mk (List.replicate n c)

/-- Left padding as in Python format `:>w`. -/
def padLeft (s : String) (w : Nat) : String := strRepl (w - s.length) ' ' ++ s

/-- Right padding as in Python format `:<w`. -/
def padRight (s : String) (w : Nat) : String := s ++ strRepl (w - s.length) ' '

/-- Lines 112 to 114 of the source: the project selection of
`cmd_project_list`, filtering only when `args.status` is truthy. -/
def selected_projects (d : Document) (status : Option String) : List Project :=
  if truthyStr status then
    d.projects.filter (fun p => decide (p.status = status.getD ""))
  else d.projects

/-- One table row of `cmd_project_list`. -/
def project_line (proj : Project) : String :=
  padLeft (toString proj.id) 3 ++ " | "
    ++ padRight (proj.name.take 25) 25 ++ " | "
    ++ padRight (proj.customer.take 18) 18 ++ " | "
    ++ padRight proj.status 7 ++ " | "
    ++ orDash proj.due_date

/-- `cmd_project_list` of the source. -/
def cmd_project_list (d : Document) (status : Option String) : CmdResult :=
  let projects := selected_projects d status
  if projects.isEmpty then CmdResult.mk none ["Keine Projekte gefunden."]
  else
    CmdResult.mk none
      (("ID  | Projekt                     | Kunde               | Status  | Termin")
        :: strRepl 76 '-'
        :: projects.map project_line)

/-- The numbered task lines of `cmd_project_detail` (`enumerate` from 1). -/
def task_lines : Nat → List Task → List String
  | _, [] => []
  | idx, t :: ts =>
      (" " ++ padLeft (toString idx) 2 ++ ". [" ++ t.status ++ "] " ++ t.title
        ++ " (bis " ++ orDash t.due_date ++ ")") :: task_lines (idx + 1) ts

/-- One material line of `cmd_project_detail`. -/
def material_line (m : Material) : String :=
  " - " ++ m.name ++ " (" ++ ratDisplay m.quantity ++ " " ++ m.unit ++ ")"

/-- The lines printed by `cmd_project_detail` for a found project. -/
def detail_lines (project : Project) : List String :=
  ["Projekt " ++ toString project.id ++ ": " ++ project.name,
   "Kunde: " ++ project.customer]
  ++ (if truthyStr project.address then ["Adresse: " ++ project.address.getD ""] else [])
  ++ (if truthyStr project.due_date then ["Fällig am: " ++ project.due_date.getD ""] else [])
  ++ ["Status: " ++ project.status]
  ++ (if truthyStr project.notes then ["Notizen: " ++ project.notes.getD ""] else [])
  ++ (if project.tasks.isEmpty then ["\nKeine Aufgaben erfasst."]
      else "\nAufgaben:" :: task_lines 1 project.tasks)
  ++ (if project.materials.isEmpty then ["\nKein Material hinterlegt."]
      else "\nMaterialbedarf:" :: project.materials.map material_line)

/-- `cmd_project_detail` of the source. -/
def cmd_project_detail (d : Document) (project_id : Int) : CmdResult :=
  match find_project d project_id with
  | none => CmdResult.mk none ["Projekt " ++ toString project_id ++ " nicht gefunden."]
  | some project => CmdResult.mk none (detail_lines project)

/-- `cmd_inventory_list` of the source. -/
def cmd_inventory_list (d : Document) : CmdResult :=
  if d.inventory.isEmpty then CmdResult.mk none ["Kein Lagerbestand erfasst."]
  else CmdResult.mk none ("Lagerbestand:" :: d.inventory.map material_line)

/-- One whole invocation at the file level: load the document, run the
command, write the file when the command saved.  `Except.error ()` is the
uncaught fatal failure on a present but non-document file; `Except.ok`
carries the resulting file contents and the printed lines. -/
def runFile (cmd : Document → CmdResult) (f : Option Json) :
    Except Unit (Option Json × List String) :=
  match load_data f with
  | none => Except.error ()
  | some d =>
      match (cmd d).saved with
      | none => Except.ok (f, (cmd d).output)
      | some d2 => Except.ok (save_data d2, (cmd d).output)

/-- Exit status of an invocation: 0 on normal return, nonzero on the fatal
uncaught failure. -/
def exitCode : Except Unit (Option Json × List String) → Nat
  | Except.ok _ => 0
  | Except.error _ => 1

/-- `task add` at the file level. -/
def cmd_task_add_file (f : Option Json) (a : TaskAddArgs) :
    Except Unit (Option Json × List String) :=
  runFile (fun d => cmd_task_add d a) f

/-- `material add` at the file level. -/
def cmd_material_add_file (f : Option Json) (a : MaterialAddArgs) :
    Except Unit (Option Json × List String) :=
  runFile (fun d => cmd_material_add d a) f

/-- `project detail` at the file level. -/
def cmd_project_detail_file (f : Option Json) (project_id : Int) :
    Except Unit (Option Json × List String) :=
  runFile (fun d => cmd_project_detail d project_id) f

/-- The ids assigned by a sequence of `project add` invocations starting at
the given document (each invocation reloads the document the previous one
saved; by the round-trip property this is the saved document itself). -/
def assigned_ids (d : Document) : List ProjectAddArgs → List Int
  | [] => []
  | a :: as => next_project_id d :: assigned_ids (project_add_doc d a) as

/-- The spec formula for id assignment, following the spec words
"max(existing ids, 0) + 1": one more than the maximum of all stored project
ids and 0. -/
def nextProjectIdSpec (d : Document) : Int :=
  (d.projects.map Project.id).foldr max 0 + 1

/-- The spec selection for `project list --status X`, following the spec
words: exactly the stored projects whose status equals `X`, in stored
order. -/
def projectListSpec (d : Document) (s : String) : List Project :=
  d.projects.filter (fun p => decide (p.status = s))

/-- A project carrying the id -1, as only external editing can produce. -/
def negProject : Project := Project.mk (-1) "Altbau" "Krause" none none "offen" none [] []

/-- A document whose only project carries a negative id. -/
def negDoc : Document := Document.mk [negProject] []

/-- A normally assigned project with id 1 and status "offen". -/
def offenProject : Project := Project.mk 1 "Dach" "Müller" none none "offen" none [] []

/-- A document holding one project with id 1 and status "offen". -/
def offenDoc : Document := Document.mk [offenProject] []

/-- A project carrying the id 0, as only external editing can produce. -/
def zeroProject : Project := Project.mk 0 "Anbau" "Schmidt" none none "offen" none [] []

/-- A document whose only project carries the id 0. -/
def zeroDoc : Document := Document.mk [zeroProject] []

lemma optStr_roundtrip (o : Option String) : optStrOfJson (optStrJson o) = some o := by
  cases o <;> rfl

lemma task_roundtrip (t : Task) : Task.fromJson (Task.to_dict t) = some t := by
  cases t with
  | mk a b c => cases b <;> rfl

lemma material_roundtrip (m : Material) : Material.fromJson (Material.to_dict m) = some m := by
  cases m
  rfl

lemma decodeList_map {α : Type} (f : Json → Option α) (g : α → Json)
    (h : ∀ x, f (g x) = some x) (xs : List α) : decodeList f (xs.map g) = some xs := by
  induction xs with
  | nil => rfl
  | cons x xs ih => simp [decodeList, h x, ih]

lemma project_roundtrip (p : Project) : Project.fromJson (Project.to_dict p) = some p := by
  cases p with
  | mk i n c ad dd st no ts ms =>
      simp [Project.to_dict, Project.fromJson, optStr_roundtrip,
        decodeList_map Task.fromJson Task.to_dict task_roundtrip,
        decodeList_map Material.fromJson Material.to_dict material_roundtrip]

lemma document_roundtrip (d : Document) : Document.fromJson (Document.toJson d) = some d := by
  cases d with
  | mk ps ms =>
      simp [Document.toJson, Document.fromJson,
        decodeList_map Project.fromJson Project.to_dict project_roundtrip,
        decodeList_map Material.fromJson Material.to_dict material_roundtrip]

lemma Document.toJson_inj {d1 d2 : Document} (h : Document.toJson d1 = Document.toJson d2) :
    d1 = d2 := by
  have h1 := document_roundtrip d1
  rw [h, document_roundtrip d2] at h1
  exact (Option.some.inj h1).symm

lemma foldl_max_shift (x y : Int) (ys : List Int) :
    List.foldl max (max x y) ys = max x (List.foldl max y ys) := by
  induction ys generalizing y with
  | nil => rfl
  | cons z ys ih =>
      show List.foldl max (max (max x y) z) ys = _
      rw [max_assoc, ih]
      rfl

lemma mem_le_foldl_max (xs : List Int) : ∀ x a : Int, a ∈ x :: xs → a ≤ List.foldl max x xs := by
  induction xs with
  | nil =>
      intro x a h
      rcases List.mem_cons.mp h with h1 | h1
      · exact le_of_eq h1
      · cases h1
  | cons y ys ih =>
      intro x a h
      have hfold : List.foldl max x (y :: ys) = max x (List.foldl max y ys) := by
        show List.foldl max (max x y) ys = _
        exact foldl_max_shift x y ys
      rw [hfold]
      rcases List.mem_cons.mp h with h1 | h1
      · exact le_of_eq h1 |>.trans (le_max_left _ _)
      · exact (ih y a h1).trans (le_max_right _ _)

lemma mem_le_listMaxD {a : Int} {l : List Int} (h : a ∈ l) : a ≤ listMaxD 0 l := by
  cases l with
  | nil => cases h
  | cons x xs => exact mem_le_foldl_max xs x a h

lemma foldr_max_eq (xs : List Int) : ∀ x : Int, List.foldr max 0 (x :: xs) = max 0 (List.foldl max x xs) := by
  induction xs with
  | nil =>
      intro x
      show max x 0 = max 0 x
      exact max_comm x 0
  | cons y ys ih =>
      intro x
      show max x (List.foldr max 0 (y :: ys)) = max 0 (List.foldl max (max x y) ys)
      rw [ih y, foldl_max_shift x y ys, ← max_assoc, max_comm x 0, max_assoc]

lemma listMaxD_append_succ (l : List Int) :
    listMaxD 0 (l ++ [listMaxD 0 l + 1]) = listMaxD 0 l + 1 := by
  cases l with
  | nil => rfl
  | cons x xs =>
      show (xs ++ [listMaxD 0 (x :: xs) + 1]).foldl max x = listMaxD 0 (x :: xs) + 1
      rw [List.foldl_append]
      show max (xs.foldl max x) (listMaxD 0 (x :: xs) + 1) = listMaxD 0 (x :: xs) + 1
      have hM : listMaxD 0 (x :: xs) = xs.foldl max x := rfl
      rw [hM]
      exact max_eq_right (by omega)

lemma next_project_id_add (d : Document) (a : ProjectAddArgs) :
    next_project_id (project_add_doc d a) = next_project_id d + 1 := by
  show listMaxD 0 ((d.projects ++ [new_project d a]).map Project.id) + 1 = _
  rw [List.map_append]
  show listMaxD 0 (d.projects.map Project.id
    ++ [listMaxD 0 (d.projects.map Project.id) + 1]) + 1 = _
  rw [listMaxD_append_succ]
  rfl

lemma assigned_ids_eq (as : List ProjectAddArgs) : ∀ d : Document,
    assigned_ids d as = (List.range as.length).map (fun n : Nat => next_project_id d + (n : Int)) := by
  induction as with
  | nil => intro d; rfl
  | cons a as ih =>
      intro d
      show next_project_id d :: assigned_ids (project_add_doc d a) as = _
      rw [ih, next_project_id_add, List.length_cons, List.range_succ_eq_map, List.map_cons,
        List.map_map]
      have hfun : ((fun n : Nat => next_project_id d + (n : Int)) ∘ Nat.succ)
          = fun n : Nat => next_project_id d + 1 + (n : Int) := by
        funext n
        show next_project_id d + ((n + 1 : Nat) : Int) = next_project_id d + 1 + (n : Int)
        push_cast
        ring
      rw [hfun]
      norm_num

lemma update_first_eq_set (i : Int) (f : Project → Project) :
    ∀ (ps : List Project) (p : Project),
      ps.find? (fun q => decide (q.id = i)) = some p →
      p.id = i ∧ ∃ j, ps[j]? = some p ∧ update_first i f ps = ps.set j (f p) ∧
        ∀ k q, k < j → ps[k]? = some q → q.id ≠ i := by
  intro ps
  induction ps with
  | nil =>
      intro p h
      simp [List.find?] at h
  | cons p0 ps ih =>
      intro p h
      by_cases h0 : p0.id = i
      · have hp : p = p0 := by
          rw [List.find?_cons_of_pos _ (by simpa using h0)] at h
          exact (Option.some.inj h).symm
        subst hp
        refine ⟨h0, 0, by simp, ?_, ?_⟩
        · show update_first i f (p :: ps) = f p :: ps
          simp [update_first, h0]
        · intro k q hk
          exact absurd hk (Nat.not_lt_zero k)
      · have hfind : ps.find? (fun q => decide (q.id = i)) = some p := by
          rw [List.find?_cons_of_neg _ (by simpa using h0)] at h
          exact h
        obtain ⟨hid, j, hj, hupd, hmin⟩ := ih p hfind
        refine ⟨hid, j + 1, by simpa using hj, ?_, ?_⟩
        · show update_first i f (p0 :: ps) = (p0 :: ps).set (j + 1) (f p)
          simp [update_first, h0, hupd]
        · intro k q hk hq
          cases k with
          | zero =>
              rw [List.getElem?_cons_zero] at hq
              rw [← Option.some.inj hq]
              exact h0
          | succ m =>
              rw [List.getElem?_cons_succ] at hq
              exact hmin m q (by omega) hq

/-- C1: starting from an absent backing file (which loads as the empty
document) or from the empty document itself, the ids assigned by any
sequence of `project add` invocations are exactly the strictly increasing
integers 1, 2, 3, …, with no gaps or repeats. -/
theorem C1_project_add_ids (as : List ProjectAddArgs) :
    load_data none = some DEFAULT_DATA ∧
    assigned_ids DEFAULT_DATA as
      = (List.range as.length).map (fun n : Nat => (n : Int) + 1) := by
  refine ⟨rfl, ?_⟩
  rw [assigned_ids_eq]
  have h1 : next_project_id DEFAULT_DATA = 1 := rfl
  rw [h1]
  have h2 : (fun n : Nat => (1 : Int) + (n : Int)) = fun n : Nat => (n : Int) + 1 := by
    funext n
    ring
  rw [h2]

/-- C2 counterexample: `material add` with the explicitly supplied project id
0, which matches no stored project of the empty document, does not print a
not-found message and does not leave the file unchanged: it appends the
material to the inventory and saves. -/
theorem C2_counterexample :
    find_project DEFAULT_DATA 0 = none ∧
    cmd_material_add_file (save_data DEFAULT_DATA)
        (MaterialAddArgs.mk "Schraube" 5 "Stk" (some 0))
      = Except.ok (save_data (Document.mk [] [Material.mk "Schraube" 5 "Stk"]),
          ["Material hinzugefügt zu Lagerbestand: 5 Stk Schraube"]) ∧
    save_data (Document.mk [] [Material.mk "Schraube" 5 "Stk"]) ≠ save_data DEFAULT_DATA := by
  refine ⟨rfl, rfl, ?_⟩
  intro hcontra
  have h1 : Document.mk [] [Material.mk "Schraube" 5 "Stk"] = DEFAULT_DATA :=
    Document.toJson_inj (Option.some.inj hcontra)
  exact absurd h1 (by decide)

/-- C2 amended: for `task add`, every project id matching no stored project
leaves the file byte-for-byte unchanged with only a not-found message; for
`material add` the same holds for every supplied nonzero project id matching
no stored project (a supplied id 0 is treated as absent instead). -/
theorem C2_not_found_no_save (f : Option Json) (d : Document) (ta : TaskAddArgs)
    (ma : MaterialAddArgs) (i : Int) (hf : load_data f = some d)
    (ht : find_project d ta.project_id = none)
    (hi : ma.project_id = some i) (hiz : i ≠ 0)
    (hm : find_project d i = none) :
    cmd_task_add_file f ta
      = Except.ok (f, ["Projekt " ++ toString ta.project_id ++ " nicht gefunden."]) ∧
    cmd_material_add_file f ma
      = Except.ok (f, ["Projekt " ++ toString i ++ " nicht gefunden."]) := by
  constructor
  · simp [cmd_task_add_file, runFile, hf, cmd_task_add, ht]
  · simp [cmd_material_add_file, runFile, hf, cmd_material_add, hi, truthyInt, hiz, hm]

/-- Witness for C2: concrete not-found invocations on the empty document. -/
theorem C2_not_found_no_save_witness :
    load_data none = some DEFAULT_DATA ∧
    find_project DEFAULT_DATA 1 = none ∧
    (MaterialAddArgs.mk "Schraube" 5 "Stk" (some 2)).project_id = some 2 ∧
    (2 : Int) ≠ 0 ∧
    find_project DEFAULT_DATA 2 = none ∧
    (cmd_task_add_file none (TaskAddArgs.mk 1 "Dach decken" none "offen")
        = Except.ok (none, ["Projekt 1 nicht gefunden."]) ∧
      cmd_material_add_file none (MaterialAddArgs.mk "Schraube" 5 "Stk" (some 2))
        = Except.ok (none, ["Projekt 2 nicht gefunden."])) :=
  ⟨rfl, rfl, rfl, by decide, rfl,
    C2_not_found_no_save none DEFAULT_DATA (TaskAddArgs.mk 1 "Dach decken" none "offen")
      (MaterialAddArgs.mk "Schraube" 5 "Stk" (some 2)) 2 rfl rfl rfl (by decide) rfl⟩

/-- C3 counterexample: on a document whose only project carries the id -1,
the code returns 0 while the claimed formula max(ids, 0) + 1 gives 1. -/
theorem C3_counterexample :
    next_project_id negDoc = 0 ∧ nextProjectIdSpec negDoc = 1 ∧
    next_project_id negDoc ≠ nextProjectIdSpec negDoc := by
  refine ⟨by decide, by decide, by decide⟩

/-- C3 amended: nextProjectId equals max(existing ids, 0) + 1 for every
document that is empty or stores at least one nonnegative id; the Python
default of the maximum applies only to an empty project list, so documents
whose ids are all negative give 1 + max(ids) instead. -/
theorem C3_next_id_formula (d : Document)
    (h : d.projects = [] ∨ ∃ p ∈ d.projects, 0 ≤ p.id) :
    next_project_id d = nextProjectIdSpec d := by
  show listMaxD 0 (d.projects.map Project.id) + 1
    = (d.projects.map Project.id).foldr max 0 + 1
  rcases h with h | ⟨p, hp, hp0⟩
  · rw [h]
    rfl
  · cases hl : d.projects.map Project.id with
    | nil => rfl
    | cons x xs =>
        rw [foldr_max_eq xs x]
        have hmem : p.id ∈ x :: xs := by
          rw [← hl]
          exact List.mem_map_of_mem Project.id hp
        have hle : (0 : Int) ≤ listMaxD 0 (x :: xs) := le_trans hp0 (mem_le_listMaxD hmem)
        have hM : listMaxD 0 (x :: xs) = List.foldl max x xs := rfl
        rw [hM] at hle
        show List.foldl max x xs + 1 = max 0 (List.foldl max x xs) + 1
        rw [max_eq_right hle]

/-- Witness for C3: the amended formula evaluated on a one-project document
with the nonnegative id 1. -/
theorem C3_next_id_formula_witness :
    (offenDoc.projects = [] ∨ ∃ p ∈ offenDoc.projects, 0 ≤ p.id) ∧
    next_project_id offenDoc = nextProjectIdSpec offenDoc :=
  ⟨Or.inr (by decide), C3_next_id_formula offenDoc (Or.inr (by decide))⟩

/-- C4 counterexample: with the empty string as status filter, the code
performs no filtering (the argument is falsy), so a project whose status is
"offen" is selected although its status differs from the filter. -/
theorem C4_counterexample :
    offenProject.status = "offen" ∧
    selected_projects offenDoc (some "") = [offenProject] ∧
    projectListSpec offenDoc "" = [] ∧
    selected_projects offenDoc (some "") ≠ projectListSpec offenDoc "" := by
  refine ⟨rfl, by decide, by decide, by decide⟩

/-- C4 amended: for every nonempty status string the listing selects exactly
the stored projects whose status equals it, by exact case-sensitive string
comparison, preserving stored order; the empty string (falsy in Python)
disables filtering instead. -/
theorem C4_status_filter (d : Document) (s : String) (h : s ≠ "") :
    selected_projects d (some s) = projectListSpec d s := by
  simp [selected_projects, projectListSpec, truthyStr, h]

/-- Witness for C4: the filter "offen" on a one-project document. -/
theorem C4_status_filter_witness :
    ("offen" : String) ≠ "" ∧
    selected_projects offenDoc (some "offen") = projectListSpec offenDoc "offen" :=
  ⟨by decide, C4_status_filter offenDoc "offen" (by decide)⟩

/-- C5: saving any document and loading the result back yields the same
document, field for field, including nested tasks, materials and the
inventory, for every combination of optional fields set or absent. -/
theorem C5_save_load_roundtrip (d : Document) :
    load_data (save_data d) = some d := by
  show Document.fromJson (Document.toJson d) = some d
  exact document_roundtrip d

/-- C6 counterexample: a supplied project id 0 does match a stored project
with id 0 (an externally edited document), yet the material is appended to
the global inventory and the matching project's materials stay empty. -/
theorem C6_counterexample :
    find_project zeroDoc 0 = some zeroProject ∧
    zeroProject.materials = [] ∧
    (cmd_material_add zeroDoc (MaterialAddArgs.mk "Balken" 2 "m" (some 0))).saved
      = some (Document.mk [zeroProject] [Material.mk "Balken" 2 "m"]) := by
  refine ⟨by decide, rfl, by decide⟩

/-- C6 amended: with no supplied project id the material is appended to the
global inventory and no project changes; with a supplied nonzero project id
matching a stored project it is appended to that project's materials and the
inventory is unchanged; in no case is it added to both. -/
theorem C6_material_add_target (d : Document) (a b : MaterialAddArgs) (i : Int) (p : Project)
    (hb : b.project_id = none)
    (ha : a.project_id = some i) (hiz : i ≠ 0) (hp : find_project d i = some p) :
    (cmd_material_add d b).saved
      = some (Document.mk d.projects (d.inventory ++ [Material.mk b.name b.quantity b.unit])) ∧
    ∃ j, d.projects[j]? = some p ∧ p.id = i ∧
      (cmd_material_add d a).saved
        = some (Document.mk
            (d.projects.set j (Project.mk p.id p.name p.customer p.address p.due_date p.status
              p.notes p.tasks (p.materials ++ [Material.mk a.name a.quantity a.unit])))
            d.inventory) := by
  constructor
  · simp [cmd_material_add, hb, truthyInt]
  · obtain ⟨hid, j, hj, hupd, hmin⟩ := update_first_eq_set i
      (fun q => Project.mk q.id q.name q.customer q.address q.due_date q.status q.notes q.tasks
        (q.materials ++ [Material.mk a.name a.quantity a.unit])) d.projects p hp
    refine ⟨j, hj, hid, ?_⟩
    simp [cmd_material_add, ha, truthyInt, hiz, hp, hupd]

/-- Witness for C6: both branches on a one-project document with id 1. -/
theorem C6_material_add_target_witness :
    (MaterialAddArgs.mk "Dämmung" 3 "m" none).project_id = none ∧
    (MaterialAddArgs.mk "Ziegel" 100 "Stk" (some 1)).project_id = some 1 ∧
    (1 : Int) ≠ 0 ∧
    find_project offenDoc 1 = some offenProject ∧
    ((cmd_material_add offenDoc (MaterialAddArgs.mk "Dämmung" 3 "m" none)).saved
        = some (Document.mk offenDoc.projects
            (offenDoc.inventory ++ [Material.mk "Dämmung" 3 "m"])) ∧
      ∃ j, offenDoc.projects[j]? = some offenProject ∧ offenProject.id = 1 ∧
        (cmd_material_add offenDoc (MaterialAddArgs.mk "Ziegel" 100 "Stk" (some 1))).saved
          = some (Document.mk
              (offenDoc.projects.set j (Project.mk offenProject.id offenProject.name
                offenProject.customer offenProject.address offenProject.due_date
                offenProject.status offenProject.notes offenProject.tasks
                (offenProject.materials ++ [Material.mk "Ziegel" 100 "Stk"])))
              offenDoc.inventory)) :=
  ⟨rfl, rfl, by decide, by decide,
    C6_material_add_target offenDoc (MaterialAddArgs.mk "Ziegel" 100 "Stk" (some 1))
      (MaterialAddArgs.mk "Dämmung" 3 "m" none) 1 offenProject rfl rfl (by decide) (by decide)⟩

/-- C7: loading from an absent backing file yields the fresh empty document
with empty projects and empty inventory; loading from a present file parses
its contents as the document. -/
theorem C7_load_default (j : Json) :
    load_data none = some DEFAULT_DATA ∧ DEFAULT_DATA.projects = [] ∧
    DEFAULT_DATA.inventory = [] ∧ load_data (some j) = Document.fromJson j :=
  ⟨rfl, rfl, rfl, rfl⟩

/-- C8: a not-found outcome of `project detail` is reported via normal
output: the invocation returns normally with the not-found line, the file
untouched, and exit status 0 — no error is raised. -/
theorem C8_not_found_exit_zero (f : Option Json) (d : Document) (project_id : Int)
    (hf : load_data f = some d) (h : find_project d project_id = none) :
    cmd_project_detail_file f project_id
      = Except.ok (f, ["Projekt " ++ toString project_id ++ " nicht gefunden."]) ∧
    exitCode (cmd_project_detail_file f project_id) = 0 := by
  have h1 : cmd_project_detail_file f project_id
      = Except.ok (f, ["Projekt " ++ toString project_id ++ " nicht gefunden."]) := by
    simp [cmd_project_detail_file, runFile, hf, cmd_project_detail, h]
  refine ⟨h1, ?_⟩
  rw [h1]
  rfl

/-- Witness for C8: `project detail 7` on the absent file. -/
theorem C8_not_found_exit_zero_witness :
    load_data none = some DEFAULT_DATA ∧
    find_project DEFAULT_DATA 7 = none ∧
    (cmd_project_detail_file none 7 = Except.ok (none, ["Projekt 7 nicht gefunden."]) ∧
      exitCode (cmd_project_detail_file none 7) = 0) :=
  ⟨rfl, rfl, C8_not_found_exit_zero none DEFAULT_DATA 7 rfl rfl⟩

/-- C9: `material add` with the explicitly supplied project id 0 does not
report not-found: it appends the material to the global inventory and saves,
behaving exactly as if no project id had been supplied. -/
theorem C9_zero_id_inventory (f : Option Json) (d : Document) (a : MaterialAddArgs)
    (hf : load_data f = some d) (h0 : a.project_id = some 0) :
    cmd_material_add_file f a
      = Except.ok (save_data (Document.mk d.projects
            (d.inventory ++ [Material.mk a.name a.quantity a.unit])),
          ["Material hinzugefügt zu " ++ "Lagerbestand" ++ ": "
            ++ ratDisplay a.quantity ++ " " ++ a.unit ++ " " ++ a.name]) ∧
    cmd_material_add d a
      = cmd_material_add d (MaterialAddArgs.mk a.name a.quantity a.unit none) := by
  constructor
  · simp [cmd_material_add_file, runFile, hf, cmd_material_add, h0, truthyInt]
  · simp [cmd_material_add, h0, truthyInt]

/-- Witness for C9: a concrete `material add --project-id 0` on the empty
document. -/
theorem C9_zero_id_inventory_witness :
    load_data none = some DEFAULT_DATA ∧
    (MaterialAddArgs.mk "Leim" 1 "kg" (some 0)).project_id = some 0 ∧
    (cmd_material_add_file none (MaterialAddArgs.mk "Leim" 1 "kg" (some 0))
        = Except.ok (save_data (Document.mk DEFAULT_DATA.projects
              (DEFAULT_DATA.inventory ++ [Material.mk "Leim" 1 "kg"])),
            ["Material hinzugefügt zu " ++ "Lagerbestand" ++ ": "
              ++ ratDisplay (1 : Rat) ++ " " ++ "kg" ++ " " ++ "Leim"]) ∧
      cmd_material_add DEFAULT_DATA (MaterialAddArgs.mk "Leim" 1 "kg" (some 0))
        = cmd_material_add DEFAULT_DATA (MaterialAddArgs.mk "Leim" 1 "kg" none)) :=
  ⟨rfl, rfl, C9_zero_id_inventory none DEFAULT_DATA (MaterialAddArgs.mk "Leim" 1 "kg" (some 0))
    rfl rfl⟩

/-- C10: `task add` on a project id matching a stored project appends exactly
one task at the end of the first matching project's tasks and changes nothing
else: that project's other fields, all other projects, their order and the
inventory are unchanged. -/
theorem C10_task_add_frame (d : Document) (a : TaskAddArgs) (p : Project)
    (h : find_project d a.project_id = some p) :
    ∃ j, d.projects[j]? = some p ∧ p.id = a.project_id ∧
      (cmd_task_add d a).saved
        = some (Document.mk
            (d.projects.set j (Project.mk p.id p.name p.customer p.address p.due_date p.status
              p.notes (p.tasks ++ [Task.mk a.title a.due_date a.status]) p.materials))
            d.inventory) := by
  obtain ⟨hid, j, hj, hupd, hmin⟩ := update_first_eq_set a.project_id
    (fun q => Project.mk q.id q.name q.customer q.address q.due_date q.status q.notes
      (q.tasks ++ [Task.mk a.title a.due_date a.status]) q.materials) d.projects p h
  refine ⟨j, hj, hid, ?_⟩
  simp [cmd_task_add, h, hupd]

/-- Witness for C10: one `task add` on a one-project document. -/
theorem C10_task_add_frame_witness :
    find_project offenDoc 1 = some offenProject ∧
    ∃ j, offenDoc.projects[j]? = some offenProject ∧ offenProject.id = 1 ∧
      (cmd_task_add offenDoc (TaskAddArgs.mk 1 "Dach decken" none "offen")).saved
        = some (Document.mk
            (offenDoc.projects.set j (Project.mk offenProject.id offenProject.name
              offenProject.customer offenProject.address offenProject.due_date
              offenProject.status offenProject.notes
              (offenProject.tasks ++ [Task.mk "Dach decken" none "offen"])
              offenProject.materials))
            offenDoc.inventory) :=
  ⟨by decide,
    C10_task_add_frame offenDoc (TaskAddArgs.mk 1 "Dach decken" none "offen") offenProject
      (by decide)⟩

end Handwerk
